import Mathlib

/-!
Shallow embedding of `src/src-tauri/src/lib.rs` (the `run` function's setup
closure) of the flack repository.

The setup closure:
  1. builds three submenus ("Bolt", "Edit", "Window") out of predefined menu
     items and separators, every framework call threaded with `?`;
  2. builds the top-level menu from the three submenus and installs it with
     `app.set_menu(menu)?`;
  3. chooses a shortcut at build time: `Super+K` when `target_os = "macos"`,
     `Ctrl+K` otherwise;
  4. looks up the webview window named "main"; if present, registers the
     shortcut with a callback `move |_, _, _| { let _ = window.set_focus(); }`,
     propagating a registration error with `?`; if absent, skips registration.

External calls (menu-item constructors, `set_menu`, the window lookup,
`on_shortcut`, `set_focus`) are modelled by explicit outcome parameters:
`none` means the call succeeded, `some e` means it returned error `e`.
Observable side effects are collected in a trace of `Effect`s.
-/

namespace Flack

/-- Errors returned by host-framework calls; only their identity matters. -/
abbrev TauriError := Nat

/-- The predefined platform actions used by the menu
(`PredefinedMenuItem::about`, `::quit`, `::undo`, `::redo`, `::cut`,
`::copy`, `::paste`, `::select_all`, `::minimize`, `::maximize`,
`::close_window`). -/
inductive ActionKind
  | about
  | quit
  | undo
  | redo
  | cut
  | copy
  | paste
  | selectAll
  | minimize
  | maximize
  | closeWindow
deriving DecidableEq, Repr

/-- A node of the menu descriptor tree: a predefined action item with an
optional label override, a separator, or a labelled group (submenu) with an
ordered list of children. -/
inductive MenuNode
  | actionItem (kind : ActionKind) (label : Option String)
  | separator
  | group (label : String) (children : List MenuNode)

/-- The top-level menu (`Menu::with_items`): an ordered list of nodes. -/
structure Menu where
  items : List MenuNode

/-- The call `PredefinedMenuItem::<kind>(app, label, ...)` — a fallible
framework call that, on success, yields the corresponding action-item
descriptor. -/
def predefinedItem (kind : ActionKind) (label : Option String)
    (outcome : Option TauriError) : Except TauriError MenuNode :=
  match outcome with
  | some e => .error e
  | none => .ok (.actionItem kind label)

/-- The call `PredefinedMenuItem::separator(app)` — fallible, yields a
separator. -/
def separatorItem (outcome : Option TauriError) : Except TauriError MenuNode :=
  match outcome with
  | some e => .error e
  | none => .ok .separator

/-- The call `Submenu::with_items(app, label, true, &[...])` — fallible,
yields a group node with the given children. -/
def submenuWithItems (label : String) (items : List MenuNode)
    (outcome : Option TauriError) : Except TauriError MenuNode :=
  match outcome with
  | some e => .error e
  | none => .ok (.group label items)

/-- The call `Menu::with_items(app, &[...])` — fallible, yields the
top-level menu. -/
def menuWithItems (items : List MenuNode) (outcome : Option TauriError) :
    Except TauriError Menu :=
  match outcome with
  | some e => .error e
  | none => .ok ⟨items⟩

/-- Outcomes of the eighteen fallible menu-construction calls of the setup
closure, one field per `?` in source order. -/
structure MenuEnv where
  aboutOut : Option TauriError
  sep1Out : Option TauriError
  quitOut : Option TauriError
  appSubOut : Option TauriError
  undoOut : Option TauriError
  redoOut : Option TauriError
  sep2Out : Option TauriError
  cutOut : Option TauriError
  copyOut : Option TauriError
  pasteOut : Option TauriError
  selectAllOut : Option TauriError
  editSubOut : Option TauriError
  minimizeOut : Option TauriError
  maximizeOut : Option TauriError
  sep3Out : Option TauriError
  closeOut : Option TauriError
  windowSubOut : Option TauriError
  menuOut : Option TauriError
deriving DecidableEq, Repr

/-- The `app_menu` block: about / separator / quit under submenu "Bolt". -/
def buildAppMenu (env : MenuEnv) : Except TauriError MenuNode := do
  let aboutItem ← predefinedItem .about (some "About Bolt") env.aboutOut
  let sepItem ← separatorItem env.sep1Out
  let quitItem ← predefinedItem .quit (some "Quit Bolt") env.quitOut
  submenuWithItems "Bolt" [aboutItem, sepItem, quitItem] env.appSubOut

/-- The `edit_menu` block: undo / redo / separator / cut / copy / paste /
select-all under submenu "Edit". -/
def buildEditMenu (env : MenuEnv) : Except TauriError MenuNode := do
  let undoItem ← predefinedItem .undo (some "Undo") env.undoOut
  let redoItem ← predefinedItem .redo (some "Redo") env.redoOut
  let sepItem ← separatorItem env.sep2Out
  let cutItem ← predefinedItem .cut (some "Cut") env.cutOut
  let copyItem ← predefinedItem .copy (some "Copy") env.copyOut
  let pasteItem ← predefinedItem .paste (some "Paste") env.pasteOut
  let selItem ← predefinedItem .selectAll (some "Select All") env.selectAllOut
  submenuWithItems "Edit"
    [undoItem, redoItem, sepItem, cutItem, copyItem, pasteItem, selItem]
    env.editSubOut

/-- The `window_menu` block: minimize / maximize ("Zoom") / separator /
close under submenu "Window". -/
def buildWindowMenu (env : MenuEnv) : Except TauriError MenuNode := do
  let minItem ← predefinedItem .minimize (some "Minimize") env.minimizeOut
  let maxItem ← predefinedItem .maximize (some "Zoom") env.maximizeOut
  let sepItem ← separatorItem env.sep3Out
  let closeItem ← predefinedItem .closeWindow (some "Close") env.closeOut
  submenuWithItems "Window" [minItem, maxItem, sepItem, closeItem]
    env.windowSubOut

/-- Menu assembly up to (not including) `set_menu`: the three submenu blocks
followed by `Menu::with_items`, failures propagating in source order. -/
def menuPhase (env : MenuEnv) : Except TauriError Menu := do
  let appMenu ← buildAppMenu env
  let editMenu ← buildEditMenu env
  let windowMenu ← buildWindowMenu env
  menuWithItems [appMenu, editMenu, windowMenu] env.menuOut

/-- The tree the setup closure assembles whenever every framework call
succeeds. -/
def appMenuStatic : MenuNode :=
  .group "Bolt"
    [.actionItem .about (some "About Bolt"), .separator,
     .actionItem .quit (some "Quit Bolt")]

/-- The "Edit" submenu on the all-success path. -/
def editMenuStatic : MenuNode :=
  .group "Edit"
    [.actionItem .undo (some "Undo"), .actionItem .redo (some "Redo"),
     .separator, .actionItem .cut (some "Cut"),
     .actionItem .copy (some "Copy"), .actionItem .paste (some "Paste"),
     .actionItem .selectAll (some "Select All")]

/-- The "Window" submenu on the all-success path. -/
def windowMenuStatic : MenuNode :=
  .group "Window"
    [.actionItem .minimize (some "Minimize"),
     .actionItem .maximize (some "Zoom"), .separator,
     .actionItem .closeWindow (some "Close")]

/-- The full static menu tree on the all-success path. -/
def staticMenu : Menu := ⟨[appMenuStatic, editMenuStatic, windowMenuStatic]⟩

/-- The menu environment in which every framework call succeeds. -/
def menuEnvOk : MenuEnv :=
  ⟨none, none, none, none, none, none, none, none, none, none, none, none,
   none, none, none, none, none, none⟩

/-- Keyboard modifier flags (the subset of the plugin's `Modifiers` bitflags
relevant to this program). -/
structure Modifiers where
  alt : Bool
  control : Bool
  shift : Bool
  superKey : Bool
deriving DecidableEq, Repr

/-- The constant `Modifiers::SUPER`. -/
def Modifiers.SUPER : Modifiers := ⟨false, false, false, true⟩

/-- The constant `Modifiers::CONTROL`. -/
def Modifiers.CONTROL : Modifiers := ⟨false, true, false, false⟩

/-- Key codes; only `Code::KeyK` occurs in the program. -/
inductive Code
  | keyK
deriving DecidableEq, Repr

/-- A shortcut: an optional modifier set plus a key code
(`Shortcut::new(mods, code)`). -/
structure Shortcut where
  mods : Option Modifiers
  key : Code
deriving DecidableEq, Repr

/-- The constructor `Shortcut::new`. -/
def Shortcut.new (m : Option Modifiers) (c : Code) : Shortcut := ⟨m, c⟩

/-- The compile-time target platform of a build; the `cfg` branch in the
source distinguishes exactly `target_os = "macos"` from everything else. -/
inductive TargetOs
  | macos
  | windows
  | linux
  | other
deriving DecidableEq, Repr

/-- The build-time shortcut choice:
`#[cfg(target_os = "macos")] Shortcut::new(Some(Modifiers::SUPER), Code::KeyK)`
and `#[cfg(not(target_os = "macos"))]
Shortcut::new(Some(Modifiers::CONTROL), Code::KeyK)`. -/
def chosenShortcut (os : TargetOs) : Shortcut :=
  match os with
  | .macos => Shortcut.new (some Modifiers.SUPER) Code.keyK
  | _ => Shortcut.new (some Modifiers.CONTROL) Code.keyK

/-- A handle to a webview window, identified by an id. -/
structure WebviewWindow where
  id : Nat
deriving DecidableEq, Repr

/-- Observable side effects of the program against the host framework /
operating system. -/
inductive Effect
  | setMenu (m : Menu)
  | registerShortcut (s : Shortcut) (w : WebviewWindow)
  | unregisterShortcut (s : Shortcut)
  | setFocus (w : WebviewWindow)

/-- Is this effect a hotkey-registration call? -/
def Effect.isRegisterB : Effect → Bool
  | .registerShortcut _ _ => true
  | _ => false

/-- Is this effect a menu-installation call? -/
def Effect.isSetMenuB : Effect → Bool
  | .setMenu _ => true
  | _ => false

/-- Is this effect a hotkey-unregistration call? -/
def Effect.isUnregisterB : Effect → Bool
  | .unregisterShortcut _ => true
  | _ => false

/-- The whole setup closure of `run`, as a function of the target platform
and the outcomes of every external call:
`menv` the menu-construction outcomes, `setMenuOut` the outcome of
`app.set_menu(menu)?`, `mainWindow` the result of
`app.get_webview_window("main")`, `registerOut` the outcome of
`app.global_shortcut().on_shortcut(...)?`.
Returns the closure's `Result` together with the trace of effects. -/
def setup (os : TargetOs) (menv : MenuEnv) (setMenuOut : Option TauriError)
    (mainWindow : Option WebviewWindow) (registerOut : Option TauriError) :
    Except TauriError Unit × List Effect :=
  match menuPhase menv with
  | .error e => (.error e, [])
  | .ok menu =>
    match setMenuOut with
    | some e => (.error e, [.setMenu menu])
    | none =>
      let shortcut := chosenShortcut os
      match mainWindow with
      | none => (.ok (), [.setMenu menu])
      | some window =>
        match registerOut with
        | some e => (.error e, [.setMenu menu, .registerShortcut shortcut window])
        | none => (.ok (), [.setMenu menu, .registerShortcut shortcut window])

/-- The call `window.set_focus()` — a fallible call whose attempt is an
observable `setFocus` effect and whose result is determined by `outcome`. -/
def set_focus (w : WebviewWindow) (outcome : Option TauriError) :
    Except TauriError Unit × List Effect :=
  (match outcome with
   | some e => .error e
   | none => .ok (), [.setFocus w])

/-- One run of the registered callback
`move |_app, _shortcut, _event| { let _ = window.set_focus(); }`:
it performs the focus request and discards its result (`let _ = ...`),
returning only the effect trace. -/
def shortcutCallback (window : WebviewWindow)
    (focusOut : Option TauriError) : List Effect :=
  let call := set_focus window focusOut
  call.2

/-- Triggering the registered callback `n` times; `focusOuts i` is the
outcome of the `set_focus` call at the `i`-th trigger. -/
def runTriggers (window : WebviewWindow)
    (focusOuts : Nat → Option TauriError) : Nat → List Effect
  | 0 => []
  | n + 1 => runTriggers window focusOuts n ++ shortcutCallback window (focusOuts n)

/-- Is this node a leaf (an action item or a separator, not a group)? -/
def leafOk : MenuNode → Bool
  | .actionItem _ _ => true
  | .separator => true
  | .group _ _ => false

/-- Is this node a group all of whose children are leaves? -/
def groupOfLeaves : MenuNode → Bool
  | .group _ children => children.all leafOk
  | _ => false

/-- The label of a group node, if it is one. -/
def groupLabel : MenuNode → Option String
  | .group l _ => some l
  | _ => none

/-- A menu environment whose first framework call
(`PredefinedMenuItem::about`) fails with error 0. -/
def menuEnvAboutFails : MenuEnv :=
  ⟨some 0, none, none, none, none, none, none, none, none, none, none, none,
   none, none, none, none, none, none⟩

/-- Inversion for a successful `Except` bind. -/
theorem exceptBind_ok {α β : Type} {x : Except TauriError α}
    {f : α → Except TauriError β} {b : β} (h : x >>= f = .ok b) :
    ∃ a, x = .ok a ∧ f a = .ok b := by
  cases x with
  | error e => simp [Bind.bind, Except.bind] at h
  | ok a => exact ⟨a, rfl, h⟩

/-- A successful predefined-item call yields exactly the tagged item. -/
theorem predefinedItem_ok {k : ActionKind} {l : Option String}
    {out : Option TauriError} {m : MenuNode}
    (h : predefinedItem k l out = .ok m) : m = .actionItem k l := by
  cases out with
  | none =>
    simp only [predefinedItem, Except.ok.injEq] at h
    exact h.symm
  | some e => simp [predefinedItem] at h

/-- A successful separator call yields a separator. -/
theorem separatorItem_ok {out : Option TauriError} {m : MenuNode}
    (h : separatorItem out = .ok m) : m = .separator := by
  cases out with
  | none =>
    simp only [separatorItem, Except.ok.injEq] at h
    exact h.symm
  | some e => simp [separatorItem] at h

/-- A successful submenu call yields the group with the given children. -/
theorem submenuWithItems_ok {l : String} {items : List MenuNode}
    {out : Option TauriError} {m : MenuNode}
    (h : submenuWithItems l items out = .ok m) : m = .group l items := by
  cases out with
  | none =>
    simp only [submenuWithItems, Except.ok.injEq] at h
    exact h.symm
  | some e => simp [submenuWithItems] at h

/-- A successful top-level menu call yields the menu of the given items. -/
theorem menuWithItems_ok {items : List MenuNode}
    {out : Option TauriError} {m : Menu}
    (h : menuWithItems items out = .ok m) : m = ⟨items⟩ := by
  cases out with
  | none =>
    simp only [menuWithItems, Except.ok.injEq] at h
    exact h.symm
  | some e => simp [menuWithItems] at h

/-- Whenever the "Bolt" submenu block succeeds, it yields the static tree. -/
theorem buildAppMenu_ok {env : MenuEnv} {m : MenuNode}
    (h : buildAppMenu env = .ok m) : m = appMenuStatic := by
  unfold buildAppMenu at h
  obtain ⟨a, ha, h⟩ := exceptBind_ok h
  obtain ⟨s, hs, h⟩ := exceptBind_ok h
  obtain ⟨q, hq, h⟩ := exceptBind_ok h
  rw [predefinedItem_ok ha, separatorItem_ok hs, predefinedItem_ok hq] at h
  rw [submenuWithItems_ok h]
  rfl

/-- Whenever the "Edit" submenu block succeeds, it yields the static tree. -/
theorem buildEditMenu_ok {env : MenuEnv} {m : MenuNode}
    (h : buildEditMenu env = .ok m) : m = editMenuStatic := by
  unfold buildEditMenu at h
  obtain ⟨a, ha, h⟩ := exceptBind_ok h
  obtain ⟨b, hb, h⟩ := exceptBind_ok h
  obtain ⟨s, hs, h⟩ := exceptBind_ok h
  obtain ⟨c, hc, h⟩ := exceptBind_ok h
  obtain ⟨d, hd, h⟩ := exceptBind_ok h
  obtain ⟨p, hp, h⟩ := exceptBind_ok h
  obtain ⟨q, hq, h⟩ := exceptBind_ok h
  rw [predefinedItem_ok ha, predefinedItem_ok hb, separatorItem_ok hs,
    predefinedItem_ok hc, predefinedItem_ok hd, predefinedItem_ok hp,
    predefinedItem_ok hq] at h
  rw [submenuWithItems_ok h]
  rfl

/-- Whenever the "Window" submenu block succeeds, it yields the static
tree. -/
theorem buildWindowMenu_ok {env : MenuEnv} {m : MenuNode}
    (h : buildWindowMenu env = .ok m) : m = windowMenuStatic := by
  unfold buildWindowMenu at h
  obtain ⟨a, ha, h⟩ := exceptBind_ok h
  obtain ⟨b, hb, h⟩ := exceptBind_ok h
  obtain ⟨s, hs, h⟩ := exceptBind_ok h
  obtain ⟨c, hc, h⟩ := exceptBind_ok h
  rw [predefinedItem_ok ha, predefinedItem_ok hb, separatorItem_ok hs,
    predefinedItem_ok hc] at h
  rw [submenuWithItems_ok h]
  rfl

/-- Whenever menu assembly succeeds, its value is the fixed static tree. -/
theorem menuPhase_ok {env : MenuEnv} {m : Menu}
    (h : menuPhase env = .ok m) : m = staticMenu := by
  unfold menuPhase at h
  obtain ⟨a, ha, h⟩ := exceptBind_ok h
  obtain ⟨b, hb, h⟩ := exceptBind_ok h
  obtain ⟨c, hc, h⟩ := exceptBind_ok h
  rw [buildAppMenu_ok ha, buildEditMenu_ok hb, buildWindowMenu_ok hc] at h
  rw [menuWithItems_ok h]
  rfl

/-- Triggering the callback `n` times produces exactly `n` focus attempts
against the captured window, whatever the focus outcomes are. -/
theorem runTriggers_eq_replicate (w : WebviewWindow)
    (outs : Nat → Option TauriError) (n : Nat) :
    runTriggers w outs n = List.replicate n (Effect.setFocus w) := by
  induction n with
  | zero => rfl
  | succ k ih =>
    rw [runTriggers, ih, List.replicate_succ']
    rfl

/-- A list of copies of an element the predicate rejects counts zero. -/
theorem countP_replicate_zero {α : Type} (p : α → Bool) (a : α) (n : Nat)
    (h : p a = false) : (List.replicate n a).countP p = 0 := by
  induction n with
  | zero => rfl
  | succ k ih => simp [List.replicate_succ, List.countP_cons, h, ih]

/-- Claim C1: if the main-window lookup returns absent during setup (so the
run reached the lookup: menu assembly and `set_menu` succeeded), then no
hotkey registration call is made and the setup closure still returns
success, whatever the hotkey facility would have answered. -/
theorem C1_window_absent_skips_registration_setup_ok
    (os : TargetOs) (menv : MenuEnv) (m : Menu)
    (registerOut : Option TauriError) (hm : menuPhase menv = .ok m) :
    (setup os menv none none registerOut).1 = .ok () ∧
    (setup os menv none none registerOut).2.countP Effect.isRegisterB = 0 := by
  simp [setup, hm, List.countP_cons, Effect.isRegisterB]

/-- Witness for C1 at the all-success environment on Linux. -/
theorem C1_witness :
    (setup TargetOs.linux menuEnvOk none none none).1 = .ok () ∧
    (setup TargetOs.linux menuEnvOk none none none).2.countP
      Effect.isRegisterB = 0 :=
  C1_window_absent_skips_registration_setup_ok TargetOs.linux menuEnvOk
    staticMenu none rfl

/-- Claim C2: the build-time branch selects Super+K exactly on macOS and
Ctrl+K on every other platform, and the selected modifier set is never both
Super and Ctrl and never empty. -/
theorem C2_platform_shortcut_selection (os : TargetOs) :
    (os = .macos →
      chosenShortcut os = Shortcut.new (some Modifiers.SUPER) Code.keyK) ∧
    (os ≠ .macos →
      chosenShortcut os = Shortcut.new (some Modifiers.CONTROL) Code.keyK) ∧
    ∀ mo : Modifiers, (chosenShortcut os).mods = some mo →
      (mo.control = true ∨ mo.superKey = true) ∧
      ¬(mo.control = true ∧ mo.superKey = true) := by
  cases os <;>
    refine ⟨fun h => ?_, fun h => ?_, fun mo hmo => ?_⟩ <;>
    simp_all [chosenShortcut, Shortcut.new, Modifiers.SUPER,
      Modifiers.CONTROL] <;>
    subst hmo <;> decide

/-- Witness for C2 at the Linux build. -/
theorem C2_witness :
    (TargetOs.linux = TargetOs.macos →
      chosenShortcut TargetOs.linux
        = Shortcut.new (some Modifiers.SUPER) Code.keyK) ∧
    (TargetOs.linux ≠ TargetOs.macos →
      chosenShortcut TargetOs.linux
        = Shortcut.new (some Modifiers.CONTROL) Code.keyK) ∧
    ∀ mo : Modifiers, (chosenShortcut TargetOs.linux).mods = some mo →
      (mo.control = true ∨ mo.superKey = true) ∧
      ¬(mo.control = true ∧ mo.superKey = true) :=
  C2_platform_shortcut_selection TargetOs.linux

/-- Claim C3: if the main-window lookup returns present during setup (the
run reached the lookup: menu assembly and `set_menu` succeeded), exactly one
hotkey registration call occurs, and the combination passed to it is the one
chosen by the build-time platform branch. -/
theorem C3_window_present_registers_platform_shortcut_once
    (os : TargetOs) (menv : MenuEnv) (m : Menu) (w : WebviewWindow)
    (registerOut : Option TauriError) (hm : menuPhase menv = .ok m) :
    (setup os menv none (some w) registerOut).2.filter Effect.isRegisterB
      = [Effect.registerShortcut (chosenShortcut os) w] := by
  cases registerOut <;>
    simp [setup, hm, List.filter, Effect.isRegisterB]

/-- Witness for C3 at the all-success environment on Linux, window id 0. -/
theorem C3_witness :
    (setup TargetOs.linux menuEnvOk none (some ⟨0⟩) none).2.filter
        Effect.isRegisterB
      = [Effect.registerShortcut (chosenShortcut TargetOs.linux) ⟨0⟩] :=
  C3_window_present_registers_platform_shortcut_once TargetOs.linux menuEnvOk
    staticMenu ⟨0⟩ none rfl

/-- Claim C4: triggering the registered callback `n` times performs exactly
`n` focus-request attempts, all against the captured window, and the trace
is independent of whether any focus request fails — a failure is swallowed
inside the callback and no state accumulates between triggers. -/
theorem C4_triggers_n_focus_attempts_failures_swallowed
    (w : WebviewWindow) (outs1 outs2 : Nat → Option TauriError) (n : Nat) :
    runTriggers w outs1 n = List.replicate n (Effect.setFocus w) ∧
    runTriggers w outs1 n = runTriggers w outs2 n ∧
    (runTriggers w outs1 n).length = n := by
  refine ⟨runTriggers_eq_replicate w outs1 n, ?_, ?_⟩
  · rw [runTriggers_eq_replicate w outs1 n, runTriggers_eq_replicate w outs2 n]
  · rw [runTriggers_eq_replicate w outs1 n, List.length_replicate]

/-- A focus-outcome assignment on which every focus request fails. -/
def failEveryTime : Nat → Option TauriError := fun _ => some 0

/-- A focus-outcome assignment on which every focus request succeeds. -/
def succeedEveryTime : Nat → Option TauriError := fun _ => none

/-- Witness for C4 with three triggers, all of whose focus requests fail. -/
theorem C4_witness :
    runTriggers ⟨0⟩ failEveryTime 3
      = List.replicate 3 (Effect.setFocus ⟨0⟩) ∧
    runTriggers ⟨0⟩ failEveryTime 3 = runTriggers ⟨0⟩ succeedEveryTime 3 ∧
    (runTriggers ⟨0⟩ failEveryTime 3).length = 3 :=
  C4_triggers_n_focus_attempts_failures_swallowed ⟨0⟩ failEveryTime
    succeedEveryTime 3

/-- Claim C5: a registration error reported by the global-hotkey facility
propagates out of the setup closure as a setup failure, and it is the only
shortcut-binder error that does: with the same run prefix, a successful
registration gives overall success, and with the window absent the facility
is never consulted and setup succeeds. -/
theorem C5_registration_error_propagates_and_is_only_fatal
    (os : TargetOs) (menv : MenuEnv) (m : Menu) (w : WebviewWindow)
    (e : TauriError) (hm : menuPhase menv = .ok m) :
    (setup os menv none (some w) (some e)).1 = .error e ∧
    (setup os menv none (some w) none).1 = .ok () ∧
    (setup os menv none none (some e)).1 = .ok () := by
  simp [setup, hm]

/-- Witness for C5 at the all-success environment on Linux, window id 0,
registration error 7. -/
theorem C5_witness :
    (setup TargetOs.linux menuEnvOk none (some ⟨0⟩) (some 7)).1
      = .error 7 ∧
    (setup TargetOs.linux menuEnvOk none (some ⟨0⟩) none).1 = .ok () ∧
    (setup TargetOs.linux menuEnvOk none none (some 7)).1 = .ok () :=
  C5_registration_error_propagates_and_is_only_fatal TargetOs.linux menuEnvOk
    staticMenu ⟨0⟩ 7 rfl

/-- Counterexample to claim C6 as stated: menu assembly consists of fallible
host-framework calls, so it can fail for a run of setup — in the run where
the very first call `PredefinedMenuItem::about` returns error 0, assembly
fails, setup returns that error, and no menu is ever handed over. -/
theorem C6_counterexample :
    menuPhase menuEnvAboutFails = .error 0 ∧
    (setup TargetOs.linux menuEnvAboutFails none none none).1 = .error 0 ∧
    (setup TargetOs.linux menuEnvAboutFails none none none).2 = [] :=
  ⟨rfl, rfl, rfl⟩

/-- Claim C6 (amended): menu assembly is a chain of fallible host-framework
constructor calls. In every run of setup in which assembly returns an error,
that error propagates as the setup result and no menu is ever installed (the
run performs no effect at all); in every run in which assembly succeeds, its
value is the fixed static tree, and the run hands it to the
menu-installation entry point exactly once, whatever happens later in
setup. -/
theorem C6_menu_assembly_static_and_installed_once
    (os : TargetOs) (menv : MenuEnv) (setMenuOut : Option TauriError)
    (mainWindow : Option WebviewWindow) (registerOut : Option TauriError) :
    (∀ e : TauriError, menuPhase menv = .error e →
      (setup os menv setMenuOut mainWindow registerOut).1 = .error e ∧
      (setup os menv setMenuOut mainWindow registerOut).2 = []) ∧
    (∀ m : Menu, menuPhase menv = .ok m →
      m = staticMenu ∧
      (setup os menv setMenuOut mainWindow registerOut).2.filter
        Effect.isSetMenuB = [Effect.setMenu staticMenu]) := by
  constructor
  · intro e he
    simp [setup, he]
  · intro m hm
    have hstat := menuPhase_ok hm
    subst hstat
    refine ⟨rfl, ?_⟩
    cases setMenuOut <;> cases mainWindow <;> cases registerOut <;>
      simp [setup, hm, List.filter, Effect.isSetMenuB]

/-- Witness for the amended C6: the failure clause at the run where the
about call errs with 0, the success clause at the all-success environment,
both on Linux with the window absent. -/
theorem C6_witness :
    ((setup TargetOs.linux menuEnvAboutFails none none none).1
        = .error 0 ∧
      (setup TargetOs.linux menuEnvAboutFails none none none).2 = []) ∧
    (staticMenu = staticMenu ∧
      (setup TargetOs.linux menuEnvOk none none none).2.filter
        Effect.isSetMenuB = [Effect.setMenu staticMenu]) :=
  ⟨(C6_menu_assembly_static_and_installed_once TargetOs.linux
      menuEnvAboutFails none none none).1 0 rfl,
   (C6_menu_assembly_static_and_installed_once TargetOs.linux
      menuEnvOk none none none).2 staticMenu rfl⟩

/-- Claim C7: the binder performs at most one registration in any run of
setup, a registration happens only when the window lookup succeeded, no
unregistration call ever occurs, and triggering the callback afterwards
never registers or unregisters anything — two states, one forward
transition, no way back. -/
theorem C7_at_most_one_registration_no_teardown
    (os : TargetOs) (menv : MenuEnv) (setMenuOut : Option TauriError)
    (mainWindow : Option WebviewWindow) (registerOut : Option TauriError)
    (w : WebviewWindow) (focusOuts : Nat → Option TauriError) (n : Nat) :
    (setup os menv setMenuOut mainWindow registerOut).2.countP
      Effect.isRegisterB ≤ 1 ∧
    ((setup os menv setMenuOut mainWindow registerOut).2.countP
        Effect.isRegisterB = 1 → mainWindow ≠ none) ∧
    (setup os menv setMenuOut mainWindow registerOut).2.countP
      Effect.isUnregisterB = 0 ∧
    (runTriggers w focusOuts n).countP Effect.isRegisterB = 0 ∧
    (runTriggers w focusOuts n).countP Effect.isUnregisterB = 0 := by
  rw [runTriggers_eq_replicate w focusOuts n]
  cases hm : menuPhase menv <;> cases setMenuOut <;> cases mainWindow <;>
    cases registerOut <;>
    simp [setup, hm, List.countP_cons, Effect.isRegisterB,
      Effect.isUnregisterB, countP_replicate_zero]

/-- Witness for C7 at the all-success environment on Linux with the window
present and two callback triggers. -/
theorem C7_witness :
    (setup TargetOs.linux menuEnvOk none (some ⟨0⟩) none).2.countP
      Effect.isRegisterB ≤ 1 ∧
    ((setup TargetOs.linux menuEnvOk none (some ⟨0⟩) none).2.countP
        Effect.isRegisterB = 1 → (some (⟨0⟩ : WebviewWindow)) ≠ none) ∧
    (setup TargetOs.linux menuEnvOk none (some ⟨0⟩) none).2.countP
      Effect.isUnregisterB = 0 ∧
    (runTriggers ⟨0⟩ failEveryTime 2).countP Effect.isRegisterB = 0 ∧
    (runTriggers ⟨0⟩ failEveryTime 2).countP Effect.isUnregisterB = 0 :=
  C7_at_most_one_registration_no_teardown TargetOs.linux menuEnvOk none
    (some ⟨0⟩) none ⟨0⟩ failEveryTime 2

/-- Claim C8: menu-tree construction is deterministic and pure — any two
successful runs of the menu-building code produce the same tree, namely the
fixed static tree determined by the compile-time labels alone. -/
theorem C8_menu_construction_deterministic
    (env1 env2 : MenuEnv) (m1 m2 : Menu)
    (h1 : menuPhase env1 = .ok m1) (h2 : menuPhase env2 = .ok m2) :
    m1 = staticMenu ∧ m1 = m2 := by
  rw [menuPhase_ok h1, menuPhase_ok h2]
  exact ⟨rfl, rfl⟩

/-- Witness for C8 at the all-success environment, twice. -/
theorem C8_witness :
    staticMenu = staticMenu ∧ staticMenu = staticMenu :=
  C8_menu_construction_deterministic menuEnvOk menuEnvOk staticMenu
    staticMenu rfl rfl

/-- Claim C9: any menu tree handed to the host framework in a run of setup
has exactly the three groups "Bolt", "Edit", "Window", in that order, and
every entry of every group is a leaf: a predefined platform action (a value
of `ActionKind`, the set about/quit/undo/redo/cut/copy/paste/select-all/
minimize/maximize/close) or a separator. -/
theorem C9_installed_menu_shape
    (os : TargetOs) (menv : MenuEnv) (setMenuOut : Option TauriError)
    (mainWindow : Option WebviewWindow) (registerOut : Option TauriError)
    (m : Menu)
    (hmem : Effect.setMenu m
      ∈ (setup os menv setMenuOut mainWindow registerOut).2) :
    m.items.map groupLabel = [some "Bolt", some "Edit", some "Window"] ∧
    m.items.all groupOfLeaves = true := by
  have hm : m = staticMenu := by
    cases hh : menuPhase menv with
    | error e => simp [setup, hh] at hmem
    | ok menu =>
      have hms := menuPhase_ok hh
      cases setMenuOut <;> cases mainWindow <;> cases registerOut <;>
        simp [setup, hh] at hmem <;> simp_all
  subst hm
  exact ⟨rfl, rfl⟩

/-- Witness for C9 at the all-success environment on Linux with the window
absent. -/
theorem C9_witness :
    staticMenu.items.map groupLabel
      = [some "Bolt", some "Edit", some "Window"] ∧
    staticMenu.items.all groupOfLeaves = true :=
  C9_installed_menu_shape TargetOs.linux menuEnvOk none none none staticMenu
    (by
      have ht : (setup TargetOs.linux menuEnvOk none none none).2
          = [Effect.setMenu staticMenu] := rfl
      rw [ht]
      exact List.mem_singleton_self _)

/-- Claim C10: menu installation is unaffected by the window lookup — the
trace of a window-absent run is exactly the trace of the corresponding
window-present run with the registration effect removed (in particular the
same menu tree is installed), and in every present-window run all menu
installation precedes all registration. -/
theorem C10_menu_install_unaffected_by_lookup
    (os : TargetOs) (menv : MenuEnv) (setMenuOut : Option TauriError)
    (w : WebviewWindow) (r1 r2 : Option TauriError) :
    (setup os menv setMenuOut none r1).2 =
      ((setup os menv setMenuOut (some w) r2).2).filter
        (fun e => !Effect.isRegisterB e) ∧
    (setup os menv setMenuOut (some w) r2).2 =
      ((setup os menv setMenuOut (some w) r2).2.filter Effect.isSetMenuB) ++
      ((setup os menv setMenuOut (some w) r2).2.filter
        Effect.isRegisterB) := by
  cases hh : menuPhase menv <;> cases setMenuOut <;> cases r2 <;>
    simp [setup, hh, List.filter, Effect.isRegisterB, Effect.isSetMenuB]

end Flack
